import Mathlib

/-!
Verification development for the API client / auth slice of a Next.js
boilerplate: error normalization (`src/shared/lib/api/errors.ts`), the
HTTP client wrapper with retry and GET de-duplication
(`src/shared/lib/api/client.ts`), and the unified auth store with its
token-refresh coordinator (`src/modules/auth/stores/auth-store.ts`).

The TypeScript functions are shallowly embedded: pure functions become
Lean functions, the mutable module state (the pending-request map, the
refresh queue, localStorage, the zustand store) becomes explicit state
values threaded through step functions, and thrown exceptions become
`Except` values.
-/

/-! ## Error codes (`ErrorCodes` in errors.ts) -/

inductive ErrorCode where
  | UNAUTHORIZED
  | FORBIDDEN
  | TOKEN_EXPIRED
  | INVALID_CREDENTIALS
  | VALIDATION_ERROR
  | INVALID_INPUT
  | MISSING_REQUIRED_FIELD
  | NOT_FOUND
  | ALREADY_EXISTS
  | CONFLICT
  | NETWORK_ERROR
  | TIMEOUT
  | SERVICE_UNAVAILABLE
  | INTERNAL_SERVER_ERROR
  | DATABASE_ERROR
  | EXTERNAL_SERVICE_ERROR
  | SERVER_ERROR
  | BAD_REQUEST
  | RATE_LIMIT_EXCEEDED
  | UNKNOWN_ERROR
deriving DecidableEq, BEq

/-- The `details` payload attached to an `AppError` (`details?: unknown`).
Only the shapes the source actually attaches are distinguished; everything
else is collapsed into `otherDetails`. -/
inductive ErrDetails where
  | cancelledFlag
  | stackTrace (s : String)
  | originalError (tag : String)
  | otherDetails
deriving DecidableEq, BEq

/-- The `AppError` class of errors.ts, with the fields its constructor sets.
`statusCode`, `details` and `requestId` are optional in the source. -/
structure AppError where
  message : String
  code : ErrorCode
  statusCode : Option Nat
  isOperational : Bool
  details : Option ErrDetails
  requestId : Option String
  retryable : Bool
deriving DecidableEq, BEq

/-- JS `a || b` on an optional string: `b` is used when `a` is absent or
empty (the empty string is falsy in JS). -/
def orDefault (m : Option String) (d : String) : String :=
  match m with
  | some s => if s = "" then d else s
  | none => d

/-- One row of the `statusMap` table in `AppError.fromHttpStatus`. -/
structure StatusEntry where
  code : ErrorCode
  message : String
  retryable : Bool
deriving DecidableEq, BEq

/-- The fixed `statusMap` table of `AppError.fromHttpStatus`
(a JS object literal keyed by status, embedded as an association list). -/
def statusMap : List (Nat × StatusEntry) :=
  [ (400, ⟨ErrorCode.BAD_REQUEST, "Invalid request data", false⟩),
    (401, ⟨ErrorCode.UNAUTHORIZED, "Authentication required", false⟩),
    (403, ⟨ErrorCode.FORBIDDEN, "Access denied", false⟩),
    (404, ⟨ErrorCode.NOT_FOUND, "Resource not found", false⟩),
    (409, ⟨ErrorCode.CONFLICT, "Resource conflict", false⟩),
    (429, ⟨ErrorCode.RATE_LIMIT_EXCEEDED, "Too many requests", true⟩),
    (500, ⟨ErrorCode.INTERNAL_SERVER_ERROR, "Internal server error", true⟩),
    (502, ⟨ErrorCode.SERVICE_UNAVAILABLE, "Service temporarily unavailable", true⟩),
    (503, ⟨ErrorCode.SERVICE_UNAVAILABLE, "Service unavailable", true⟩),
    (504, ⟨ErrorCode.TIMEOUT, "Request timeout", true⟩) ]

/-- The keys of `statusMap`. -/
def statusMapKeys : List Nat := statusMap.map Prod.fst

/-- `AppError.fromHttpStatus(status, message?, details?, requestId?)`:
look the status up in the fixed table, fall back to UNKNOWN_ERROR, and
build an `AppError` with `isOperational = true` and the table's
`retryable` flag. -/
def AppError.fromHttpStatus (status : Nat) (message : Option String)
    (details : Option ErrDetails) (requestId : Option String) : AppError :=
  let errorInfo := (statusMap.lookup status).getD
    ⟨ErrorCode.UNKNOWN_ERROR, "An unexpected error occurred", false⟩
  { message := orDefault message errorInfo.message
    code := errorInfo.code
    statusCode := some status
    isOperational := true
    details := details
    requestId := requestId
    retryable := errorInfo.retryable }

/-- `AppError.networkError(message?)`: a retryable NETWORK_ERROR with no
status code. -/
def AppError.networkErr (message : Option String) : AppError :=
  { message := orDefault message "Network connection failed"
    code := ErrorCode.NETWORK_ERROR
    statusCode := none
    isOperational := true
    details := none
    requestId := none
    retryable := true }

/-! ## `normalizeError` (errors.ts) -/

/-- Character-list prefix test (JS `String.prototype.startsWith` on the
suffix being examined). -/
def isPrefChar : List Char → List Char → Bool
  | [], _ => true
  | _ :: _, [] => false
  | a :: as, b :: bs => a == b && isPrefChar as bs

/-- Character-list substring test. -/
def hasSubList (pat : List Char) : List Char → Bool
  | [] => isPrefChar pat []
  | c :: rest => isPrefChar pat (c :: rest) || hasSubList pat rest

/-- JS `s.includes(pat)`. -/
def hasSubStr (pat s : String) : Bool := hasSubList pat.toList s.toList

/-- The `as const` names of `ErrorCodes`, used by `normalizeError` to map a
custom object's string `code` onto a known `ErrorCode`
(`Object.values(ErrorCodes).includes(code)`). -/
def errorCodeNames : List (String × ErrorCode) :=
  [ ("UNAUTHORIZED", ErrorCode.UNAUTHORIZED),
    ("FORBIDDEN", ErrorCode.FORBIDDEN),
    ("TOKEN_EXPIRED", ErrorCode.TOKEN_EXPIRED),
    ("INVALID_CREDENTIALS", ErrorCode.INVALID_CREDENTIALS),
    ("VALIDATION_ERROR", ErrorCode.VALIDATION_ERROR),
    ("INVALID_INPUT", ErrorCode.INVALID_INPUT),
    ("MISSING_REQUIRED_FIELD", ErrorCode.MISSING_REQUIRED_FIELD),
    ("NOT_FOUND", ErrorCode.NOT_FOUND),
    ("ALREADY_EXISTS", ErrorCode.ALREADY_EXISTS),
    ("CONFLICT", ErrorCode.CONFLICT),
    ("NETWORK_ERROR", ErrorCode.NETWORK_ERROR),
    ("TIMEOUT", ErrorCode.TIMEOUT),
    ("SERVICE_UNAVAILABLE", ErrorCode.SERVICE_UNAVAILABLE),
    ("INTERNAL_SERVER_ERROR", ErrorCode.INTERNAL_SERVER_ERROR),
    ("DATABASE_ERROR", ErrorCode.DATABASE_ERROR),
    ("EXTERNAL_SERVICE_ERROR", ErrorCode.EXTERNAL_SERVICE_ERROR),
    ("SERVER_ERROR", ErrorCode.SERVER_ERROR),
    ("BAD_REQUEST", ErrorCode.BAD_REQUEST),
    ("RATE_LIMIT_EXCEEDED", ErrorCode.RATE_LIMIT_EXCEEDED),
    ("UNKNOWN_ERROR", ErrorCode.UNKNOWN_ERROR) ]

/-- The `unknown` input of `normalizeError`, split into the shapes the
source's runtime probes distinguish (in probe order): an `AppError`
instance, a standard `Error` instance (with its `name`, `message`, and
optional `stack`), an object with a `status`/`statusCode` field, an
axios-like object with a `response`, a fetch-like object with
`ok === false`, a custom object with `code` and `message`, a GraphQL-like
object with an `errors` array, any other object, a string, a number, and
anything else (null, undefined, boolean, ...). -/
inductive ErrValue where
  | appErr (e : AppError)
  | jsError (name : String) (message : String) (stack : Option String)
  | objStatus (status : Nat) (message : Option String)
  | objResponse (status : Option Nat) (dataMessage : Option String) (message : Option String)
  | objFetchFail (status : Option Nat) (statusText : Option String)
  | objCodeMessage (code : String) (message : String) (statusCode : Option Nat)
      (details : Option ErrDetails)
  | objGraphQL (firstMessage : Option String)
  | objPlain
  | str (s : String)
  | num (n : Nat)
  | otherVal
deriving DecidableEq

/-- JS `x || 500` on an optional numeric status (0 is falsy). -/
def statusOr500 : Option Nat → Nat
  | some s => if s = 0 then 500 else s
  | none => 500

/-- `normalizeError(error: unknown): AppError` of errors.ts, branch by
branch. The source function has no throwing operation, so its embedding
is a total function into `AppError`. -/
def normalizeError : ErrValue → AppError
  | .appErr e => e
  | .jsError name message stack =>
    if name == "AbortError" then
      ⟨"Request was cancelled", ErrorCode.NETWORK_ERROR, none, true,
        some ErrDetails.cancelledFlag, none, false⟩
    else if name == "TimeoutError" then
      ⟨"Request timed out", ErrorCode.TIMEOUT, some 504, true, none, none, false⟩
    else if name == "NetworkError" || hasSubStr "network" message then
      AppError.networkErr (some message)
    else if name == "ValidationError" then
      ⟨message, ErrorCode.VALIDATION_ERROR, some 400, true,
        some (ErrDetails.stackTrace (stack.getD "")), none, false⟩
    else
      ⟨message, ErrorCode.UNKNOWN_ERROR, some 500, false,
        some (ErrDetails.originalError name), none, false⟩
  | .objStatus status message =>
    AppError.fromHttpStatus status (some (orDefault message "API Error"))
      (some ErrDetails.otherDetails) none
  | .objResponse status dataMessage message =>
    AppError.fromHttpStatus (statusOr500 status)
      (some (orDefault dataMessage (orDefault message "Request failed")))
      (some ErrDetails.otherDetails) none
  | .objFetchFail status statusText =>
    AppError.fromHttpStatus (statusOr500 status)
      (some (orDefault statusText "Request failed"))
      (some ErrDetails.otherDetails) none
  | .objCodeMessage code message statusCode details =>
    let errorCode := (errorCodeNames.lookup code).getD ErrorCode.UNKNOWN_ERROR
    let sc := match statusCode with
      | some s => if s = 0 then 500 else s
      | none => 500
    ⟨message, errorCode, some sc, true, details, none, false⟩
  | .objGraphQL firstMessage =>
    ⟨orDefault firstMessage "GraphQL error", ErrorCode.BAD_REQUEST, some 400, true,
      some ErrDetails.otherDetails, none, false⟩
  | .objPlain =>
    ⟨"An unexpected error occurred", ErrorCode.UNKNOWN_ERROR, some 500, false,
      some ErrDetails.otherDetails, none, false⟩
  | .str s =>
    if hasSubStr "unauthorized" s.toLower then
      ⟨s, ErrorCode.UNAUTHORIZED, some 401, true, none, none, false⟩
    else if hasSubStr "forbidden" s.toLower then
      ⟨s, ErrorCode.FORBIDDEN, some 403, true, none, none, false⟩
    else if hasSubStr "not found" s.toLower then
      ⟨s, ErrorCode.NOT_FOUND, some 404, true, none, none, false⟩
    else if hasSubStr "timeout" s.toLower then
      ⟨s, ErrorCode.TIMEOUT, some 504, true, none, none, false⟩
    else if hasSubStr "network" s.toLower then
      AppError.networkErr (some s)
    else
      ⟨s, ErrorCode.UNKNOWN_ERROR, some 500, false, none, none, false⟩
  | .num n => AppError.fromHttpStatus n none none none
  | .otherVal =>
    ⟨"An unexpected error occurred", ErrorCode.UNKNOWN_ERROR, some 500, false,
      some (ErrDetails.originalError "unknown"), none, false⟩

/-- The inputs whose shape matches none of `normalizeError`'s special
probes: a generic `Error` (no recognized name, no "network" in the
message), a plain object matching no probe, a string containing none of
the recognized patterns, and the final non-object fallback. -/
def unrecognizedShape : ErrValue → Bool
  | .jsError name message _ =>
    !(name == "AbortError" || name == "TimeoutError" || name == "NetworkError"
      || hasSubStr "network" message || name == "ValidationError")
  | .objPlain => true
  | .str s =>
    !(hasSubStr "unauthorized" s.toLower || hasSubStr "forbidden" s.toLower
      || hasSubStr "not found" s.toLower || hasSubStr "timeout" s.toLower
      || hasSubStr "network" s.toLower)
  | .otherVal => true
  | _ => false

/-! ## Result wrapper (errors.ts) and `ApiResult` / `handleApiResponse`
(client.ts) -/

/-- The runtime value of `Result<T>` / `ApiResult<T>`: a JS object with a
`success` discriminant and optionally-present `data`, `error` and
`fallback` fields (absent fields modelled as `none`). -/
structure ResultObj (T : Type) where
  success : Bool
  data : Option T
  error : Option AppError
  fallback : Option T

/-- `success(data)` of errors.ts. -/
def successR {T : Type} (data : T) : ResultObj T :=
  ⟨true, some data, none, none⟩

/-- `failure(error)` of errors.ts. -/
def failureR {T : Type} (error : AppError) : ResultObj T :=
  ⟨false, none, some error, none⟩

/-- `tryCatch(fn)` of errors.ts: the awaited outcome of `fn` (a value or a
thrown `ErrValue`) becomes a success, or a failure wrapping
`normalizeError` of what was thrown. -/
def tryCatchR {T : Type} (outcome : Except ErrValue T) : ResultObj T :=
  match outcome with
  | .ok data => successR data
  | .error e => failureR (normalizeError e)

/-- The inline catch-normalization of `handleApiResponse` in client.ts
(distinct from `normalizeError`): AbortError, AppError, axios-like
response status, network-ish error, then an UNKNOWN_ERROR fallback with
`isOperational = false`. -/
def handleCatch : ErrValue → AppError
  | .jsError name message stack =>
    if name == "AbortError" then
      ⟨"Request was cancelled", ErrorCode.NETWORK_ERROR, none, true,
        some ErrDetails.cancelledFlag, none, false⟩
    else if name == "NetworkError" || hasSubStr "network" message then
      AppError.networkErr (some message)
    else
      ⟨orDefault (some message) "An unexpected error occurred",
        ErrorCode.UNKNOWN_ERROR, none, false,
        some (ErrDetails.originalError (orDefault stack name)), none, false⟩
  | .appErr e => e
  | .objResponse status dataMessage message =>
    match status with
    | some s =>
      AppError.fromHttpStatus s
        (some (orDefault dataMessage (orDefault message "An unexpected error occurred")))
        (some ErrDetails.otherDetails) none
    | none =>
      ⟨"An unexpected error occurred", ErrorCode.UNKNOWN_ERROR, none, false,
        some ErrDetails.otherDetails, none, false⟩
  | .str s =>
    ⟨"An unexpected error occurred", ErrorCode.UNKNOWN_ERROR, none, false,
      some (ErrDetails.originalError s), none, false⟩
  | _ =>
    ⟨"An unexpected error occurred", ErrorCode.UNKNOWN_ERROR, none, false,
      some (ErrDetails.originalError "unknown"), none, false⟩

/-- `handleApiResponse(apiCall, signal?)` of client.ts. The first
component records whether `apiCall` was invoked at all: when the signal is
already aborted the function throws (and immediately catches) the
cancelled `AppError` before ever calling `apiCall`. -/
def handleApiResponse {T : Type} (signalAborted : Bool)
    (apiOutcome : Except ErrValue T) : Bool × ResultObj T :=
  if signalAborted then
    (false,
      failureR ⟨"Request was cancelled", ErrorCode.NETWORK_ERROR, none, true,
        some ErrDetails.cancelledFlag, none, false⟩)
  else
    match apiOutcome with
    | .ok data => (true, successR data)
    | .error e => (true, failureR (handleCatch e))

/-- The discriminated-union invariant of `Result` / `ApiResult`: the
success branch populates `data` and not `error`, the failure branch
populates `error` and not `data`; never both, never neither. -/
def exactlyOneBranch {T : Type} (r : ResultObj T) : Prop :=
  (r.success = true ∧ r.data.isSome = true ∧ r.error = none) ∨
  (r.success = false ∧ r.data = none ∧ r.error.isSome = true)

/-! ## HTTP client retry configuration and retry loop (client.ts) -/

inductive HttpMethod where
  | get | post | put | patch | delete | head | options
deriving DecidableEq, BEq

/-- HTTP idempotent methods (RFC 9110): everything except POST and PATCH. -/
def idempotentHttp : HttpMethod → Bool
  | .post => false
  | .patch => false
  | _ => true

/-- The `retry` option object passed to the ky instance. -/
structure RetryPolicy where
  limit : Nat
  methods : List HttpMethod
  statusCodes : List Nat
  backoffLimit : Nat

/-- The `retry` configuration of the operative `createApi` in client.ts
(the variant with the token-refresh hook): limit 3, all five verbs, and
status codes 401, 408, 429, 500, 502, 503, 504. -/
def clientRetryPolicy : RetryPolicy :=
  ⟨3, [.get, .put, .post, .patch, .delete], [401, 408, 429, 500, 502, 503, 504], 20000⟩

/-- 2xx responses. -/
def isSuccessStatus (s : Nat) : Bool := 200 ≤ s && s < 300

/-- Modelled from the spec: the retry loop lives in the external ky
library, not in this repository; `client.ts` only supplies its
configuration. Per the spec's retry policy the configured methods
"retry on {401, 408, 429, 500, 502, 503, 504} up to 3 attempts total,
with capped exponential backoff": each attempt reads the next response
status; a 2xx response stops with success, a configured (method, status)
pair retries while retries remain, anything else stops with that status.
`made` counts the attempts already made, `fuel` the retries still
allowed; the result is (total attempts made, final status). -/
def runRetryAux (pol : RetryPolicy) (m : HttpMethod) (responses : Nat → Nat) :
    Nat → Nat → Nat × Nat
  | made, 0 => (made + 1, responses made)
  | made, fuel + 1 =>
    let st := responses made
    if isSuccessStatus st then (made + 1, st)
    else if pol.methods.contains m && pol.statusCodes.contains st then
      runRetryAux pol m responses (made + 1) fuel
    else (made + 1, st)

/-- Run a request under a retry policy against a stream of response
statuses (attempt i receives status `responses i`). A limit of 3 allows
3 attempts total, i.e. 2 retries after the first attempt. -/
def runRetry (pol : RetryPolicy) (m : HttpMethod) (responses : Nat → Nat) : Nat × Nat :=
  runRetryAux pol m responses 0 (pol.limit - 1)

/-! ## GET request de-duplication (client.ts) -/

/-- The settled or in-flight outcome of one network call (the promise's
eventual value, abstracted to a string payload or error). -/
inductive NetOutcome where
  | ok (v : String)
  | err (e : String)
deriving DecidableEq, BEq

/-- One entry of the module-level `pendingRequests` map: the promise for
`key`, whose `finally`-scheduled `setTimeout` deletes it at `removeAt`
(= its settlement time + the TTL). -/
structure CacheEntry where
  key : String
  outcome : NetOutcome
  removeAt : Nat

/-- The client's module-level mutable state: the `pendingRequests` map
plus a counter of network calls actually issued. -/
structure ClientState where
  pending : List CacheEntry
  netCalls : Nat

def emptyClient : ClientState := ⟨[], 0⟩

/-- The TTL the GET wrapper passes to `dedupedRequest`
("Cache GET requests for 5 seconds"). -/
def GET_DEDUP_TTL : Nat := 5000

/-- The cache key built by `wrappedInstance.get`:
`GET:` + url + `:` + the serialized search params. -/
def cacheKey (url searchParams : String) : String :=
  "GET:" ++ url ++ ":" ++ searchParams

/-- Entries whose deletion timeout has fired by `now` are gone. -/
def purge (now : Nat) (l : List CacheEntry) : List CacheEntry :=
  l.filter (fun e => decide (now < e.removeAt))

/-- `dedupedRequest(key, fn, ttl)` at time `now`: if the key is pending,
return the existing promise's outcome without calling `fn`; otherwise
issue the network call (which will settle at `settleAt` with outcome
`fresh`) and register it for deletion `ttl` after settlement. -/
def dedupedRequest (st : ClientState) (key : String) (ttl : Nat) (now settleAt : Nat)
    (fresh : NetOutcome) : NetOutcome × ClientState :=
  let pending := purge now st.pending
  match pending.find? (fun e => e.key == key) with
  | some e => (e.outcome, ⟨pending, st.netCalls⟩)
  | none => (fresh, ⟨pending ++ [⟨key, fresh, settleAt + ttl⟩], st.netCalls + 1⟩)

/-- `wrappedInstance.get`: deduplicated with TTL 5000. -/
def getRequest (st : ClientState) (url searchParams : String) (now settleAt : Nat)
    (fresh : NetOutcome) : NetOutcome × ClientState :=
  dedupedRequest st (cacheKey url searchParams) GET_DEDUP_TTL now settleAt fresh

/-- `wrappedInstance.post` / `.put` / `.patch` / `.delete`: never
deduplicated — every call goes straight to the network. -/
def writeRequest (st : ClientState) (fresh : NetOutcome) : NetOutcome × ClientState :=
  (fresh, ⟨st.pending, st.netCalls + 1⟩)

/-! ## `TokenRefreshManager` (auth-store.ts) -/

/-- How one caller of `TokenRefreshManager.refresh` is settled: its
promise is resolved with a token (possibly null) or rejected with an
error. -/
inductive RefreshOutcome where
  | resolvedTok (token : Option String)
  | rejectedErr (msg : String)
deriving DecidableEq, BEq

/-- The manager's private state: the `isRefreshing` flag and the
`refreshQueue` of pending waiters (identified by caller ids). -/
structure ManagerState where
  isRefreshing : Bool
  refreshQueue : List Nat
deriving DecidableEq, BEq

def ManagerState.idle : ManagerState := ⟨false, []⟩

/-- Entry of `refresh(refreshFn)`: while a refresh is in flight the caller
is pushed onto the queue (and no network call is made); otherwise the
caller becomes the leader, sets `isRefreshing`, and issues the single
network call. Returns the new state and the number of network refresh
calls started (0 or 1). -/
def TokenRefreshManager.enter (st : ManagerState) (cid : Nat) : ManagerState × Nat :=
  if st.isRefreshing then
    ({ st with refreshQueue := st.refreshQueue ++ [cid] }, 0)
  else
    ({ st with isRefreshing := true }, 1)

/-- Several callers entering in sequence; accumulates network calls. -/
def TokenRefreshManager.enterAll (st : ManagerState) : List Nat → ManagerState × Nat
  | [] => (st, 0)
  | c :: cs =>
    let p := TokenRefreshManager.enter st c
    let q := TokenRefreshManager.enterAll p.1 cs
    (q.1, p.2 + q.2)

/-- Settlement of the single in-flight `refreshFn` call: on success every
queued waiter is resolved with the token, on a thrown error every queued
waiter is rejected with it; either way the queue is cleared and
`isRefreshing` reset (the `finally` block). Returns the leader's own
result, the new state, and the list of (waiter id, settlement). -/
def TokenRefreshManager.settle (st : ManagerState) (fnResult : Except String (Option String)) :
    Except String (Option String) × ManagerState × List (Nat × RefreshOutcome) :=
  match fnResult with
  | .ok tok =>
    (.ok tok, ManagerState.idle,
      st.refreshQueue.map (fun c => (c, RefreshOutcome.resolvedTok tok)))
  | .error e =>
    (.error e, ManagerState.idle,
      st.refreshQueue.map (fun c => (c, RefreshOutcome.rejectedErr e)))

/-- The settlement a caller observes for a given result of the underlying
refresh call: resolved with the token on success, rejected with the error
on a throw. -/
def settleOutcome : Except String (Option String) → RefreshOutcome
  | .ok tok => RefreshOutcome.resolvedTok tok
  | .error e => RefreshOutcome.rejectedErr e

/-- Everything observable about one full refresh round. -/
structure ScenarioResult where
  netCalls : Nat
  resolutions : List (Nat × RefreshOutcome)
  finalState : ManagerState

/-- One full round against an idle manager: caller `leader` starts the
refresh, callers `ws` arrive while it is in flight, then the underlying
call settles with `fnResult`. The leader's settlement is derived from the
leader's own return value of `refresh`. -/
def runRefreshScenario (leader : Nat) (ws : List Nat)
    (fnResult : Except String (Option String)) : ScenarioResult :=
  let p := TokenRefreshManager.enter ManagerState.idle leader
  let q := TokenRefreshManager.enterAll p.1 ws
  let s := TokenRefreshManager.settle q.1 fnResult
  { netCalls := p.2 + q.2
    resolutions :=
      (leader,
        match s.1 with
        | .ok tok => RefreshOutcome.resolvedTok tok
        | .error e => RefreshOutcome.rejectedErr e) :: s.2.2
    finalState := s.2.1 }

/-! ## Unified auth store (auth-store.ts) -/

/-- The store's observable state together with the two localStorage slots
(`accessToken`, `refreshToken`) it manages. -/
structure AuthModel where
  storedAccessToken : Option String
  storedRefreshToken : Option String
  user : Option String
  isAuthenticated : Bool
  isLoading : Bool
  lastActivity : Option Nat

/-- `clearTokens()`: remove both tokens from localStorage. -/
def clearTokensM (st : AuthModel) : AuthModel :=
  { st with storedAccessToken := none, storedRefreshToken := none }

/-- `clearAuthState()`: reset `user`, `isAuthenticated`, `lastActivity`. -/
def clearAuthStateM (st : AuthModel) : AuthModel :=
  { st with user := none, isAuthenticated := false, lastActivity := none }

/-- `logout()`: set loading, best-effort `authApi.logout()` whose failure
is swallowed (`catch { /* continue */ }`), then unconditionally
`clearTokens()` and reset the auth state. The remote outcome is an input;
the local teardown does not depend on it and no error is re-thrown
(the embedding returns a plain `AuthModel`, not an `Except`). -/
def logoutRun (st : AuthModel) (remoteOutcome : Except String Unit) : AuthModel :=
  let stLoading := { st with isLoading := true }
  let stAfterRemote :=
    match remoteOutcome with
    | .ok _ => stLoading
    | .error _ => stLoading
  let stCleared := clearTokensM stAfterRemote
  { stCleared with
      user := none
      isAuthenticated := false
      lastActivity := none
      isLoading := false }

/-- The three ways the `authApi.refresh(refreshToken)` call inside
`refreshAccessToken` can come back: a success `Result` carrying new
tokens, a failure `Result`, or a thrown exception. -/
inductive RefreshApiOutcome where
  | okTokens (accessToken : String) (refreshToken : String)
  | failResult
  | thrown
deriving DecidableEq, BEq

/-- The async closure passed to `tokenRefreshManager.refresh` inside
`refreshAccessToken`: on a success result it stores the new access token
and returns it; on a failure result or a thrown error it clears the
tokens and the auth state and returns null. Its try/catch swallows every
exception, so the embedding is a total function — it never throws. -/
def refreshInnerFn (st : AuthModel) (o : RefreshApiOutcome) : Option String × AuthModel :=
  match o with
  | .okTokens a _ => (some a, { st with storedAccessToken := some a })
  | .failResult => (none, clearAuthStateM (clearTokensM st))
  | .thrown => (none, clearAuthStateM (clearTokensM st))

/-- `refreshAccessToken()` for the caller that actually drives the
refresh: with no stored refresh token it tears the session down and
returns null without any network call; otherwise it runs the inner
closure and settles the manager (whose queue may hold earlier waiters)
with the closure's non-throwing result. Returns the caller's own result,
the new auth state, the new manager state, and the waiter settlements. -/
def refreshAccessTokenRun (st : AuthModel) (mgr : ManagerState) (o : RefreshApiOutcome) :
    Except String (Option String) × AuthModel × ManagerState × List (Nat × RefreshOutcome) :=
  match st.storedRefreshToken with
  | none => (.ok none, clearAuthStateM (clearTokensM st), mgr, [])
  | some _ =>
    let p := refreshInnerFn st o
    let s := TokenRefreshManager.settle mgr (.ok p.1)
    (s.1, p.2, s.2.1, s.2.2)

/-! ## Helper lemmas -/

theorem lookup_eq_none_of_notMem_keys {β : Type} (s : Nat) :
    ∀ l : List (Nat × β), s ∉ l.map Prod.fst → l.lookup s = none := by
  intro l
  induction l with
  | nil => intro _; rfl
  | cons p rest ih =>
    intro h
    obtain ⟨k, v⟩ := p
    have h1 : ¬ s = k := fun he => h (by simp [he])
    have h2 : s ∉ rest.map Prod.fst := fun hm => h (by simp [hm])
    have hk : (s == k) = false := beq_eq_false_iff_ne.mpr h1
    show (match s == k with
      | true => some v
      | false => List.lookup s rest) = none
    rw [hk]
    exact ih h2

/-! ## Claim theorems -/

/-- C2: for every status in the fixed map, `AppError.fromHttpStatus`
yields the matching (code, retryable) pair — 400→BAD_REQUEST,
401→UNAUTHORIZED, 403→FORBIDDEN, 404→NOT_FOUND, 409→CONFLICT, all
non-retryable; 429→RATE_LIMIT_EXCEEDED, 500→INTERNAL_SERVER_ERROR,
502/503→SERVICE_UNAVAILABLE, 504→TIMEOUT, all retryable — the code
depends only on the status (determinism), and every status not in the
map yields UNKNOWN_ERROR with retryable = false. -/
theorem fromHttpStatus_table_correct :
    (((AppError.fromHttpStatus 400 none none none).code = ErrorCode.BAD_REQUEST
        ∧ (AppError.fromHttpStatus 400 none none none).retryable = false)
      ∧ ((AppError.fromHttpStatus 401 none none none).code = ErrorCode.UNAUTHORIZED
        ∧ (AppError.fromHttpStatus 401 none none none).retryable = false)
      ∧ ((AppError.fromHttpStatus 403 none none none).code = ErrorCode.FORBIDDEN
        ∧ (AppError.fromHttpStatus 403 none none none).retryable = false)
      ∧ ((AppError.fromHttpStatus 404 none none none).code = ErrorCode.NOT_FOUND
        ∧ (AppError.fromHttpStatus 404 none none none).retryable = false)
      ∧ ((AppError.fromHttpStatus 409 none none none).code = ErrorCode.CONFLICT
        ∧ (AppError.fromHttpStatus 409 none none none).retryable = false)
      ∧ ((AppError.fromHttpStatus 429 none none none).code = ErrorCode.RATE_LIMIT_EXCEEDED
        ∧ (AppError.fromHttpStatus 429 none none none).retryable = true)
      ∧ ((AppError.fromHttpStatus 500 none none none).code = ErrorCode.INTERNAL_SERVER_ERROR
        ∧ (AppError.fromHttpStatus 500 none none none).retryable = true)
      ∧ ((AppError.fromHttpStatus 502 none none none).code = ErrorCode.SERVICE_UNAVAILABLE
        ∧ (AppError.fromHttpStatus 502 none none none).retryable = true)
      ∧ ((AppError.fromHttpStatus 503 none none none).code = ErrorCode.SERVICE_UNAVAILABLE
        ∧ (AppError.fromHttpStatus 503 none none none).retryable = true)
      ∧ ((AppError.fromHttpStatus 504 none none none).code = ErrorCode.TIMEOUT
        ∧ (AppError.fromHttpStatus 504 none none none).retryable = true))
    ∧ (∀ (s : Nat) (m m' : Option String) (d d' : Option ErrDetails) (r r' : Option String),
        (AppError.fromHttpStatus s m d r).code = (AppError.fromHttpStatus s m' d' r').code
          ∧ (AppError.fromHttpStatus s m d r).retryable
              = (AppError.fromHttpStatus s m' d' r').retryable)
    ∧ (∀ s : Nat, s ∉ statusMapKeys →
        (AppError.fromHttpStatus s none none none).code = ErrorCode.UNKNOWN_ERROR
          ∧ (AppError.fromHttpStatus s none none none).retryable = false) := by
  refine ⟨by decide, ?_, ?_⟩
  · intro s m m' d d' r r'
    simp [AppError.fromHttpStatus]
  · intro s hs
    have hnone : statusMap.lookup s = none :=
      lookup_eq_none_of_notMem_keys s statusMap hs
    simp [AppError.fromHttpStatus, hnone]

/-- Witness for C2 at the unmapped status 418. -/
theorem fromHttpStatus_table_correct_witness :
    (AppError.fromHttpStatus 418 none none none).code = ErrorCode.UNKNOWN_ERROR
      ∧ (AppError.fromHttpStatus 418 none none none).retryable = false :=
  fromHttpStatus_table_correct.2.2 418 (by decide)

/-- C4: every value produced by `success`, `failure`, `tryCatch` and
`handleApiResponse` populates exactly one of the success branch (with
`data`) and the failure branch (with `error`) — never both, never
neither. -/
theorem result_exactly_one_branch :
    (∀ (T : Type) (d : T), exactlyOneBranch (successR d))
    ∧ (∀ (T : Type) (e : AppError), exactlyOneBranch (failureR e : ResultObj T))
    ∧ (∀ (T : Type) (outcome : Except ErrValue T), exactlyOneBranch (tryCatchR outcome))
    ∧ (∀ (T : Type) (aborted : Bool) (outcome : Except ErrValue T),
        exactlyOneBranch (handleApiResponse aborted outcome).2) := by
  refine ⟨?_, ?_, ?_, ?_⟩
  · intro T d
    simp [exactlyOneBranch, successR]
  · intro T e
    simp [exactlyOneBranch, failureR]
  · intro T outcome
    cases outcome <;> simp [exactlyOneBranch, tryCatchR, successR, failureR]
  · intro T aborted outcome
    cases aborted <;> cases outcome <;>
      simp [exactlyOneBranch, handleApiResponse, successR, failureR]

/-- C7: `logout` performs the local teardown unconditionally — both
tokens removed from storage and `user`, `isAuthenticated`,
`lastActivity` cleared — whether or not the remote logout call fails,
and the remote error is never propagated (the two outcomes produce the
identical final state, and `logoutRun` is a total function into
`AuthModel`, not an `Except`). -/
theorem logout_unconditional_teardown :
    ∀ (st : AuthModel) (remote : Except String Unit),
      (logoutRun st remote).storedAccessToken = none
      ∧ (logoutRun st remote).storedRefreshToken = none
      ∧ (logoutRun st remote).user = none
      ∧ (logoutRun st remote).isAuthenticated = false
      ∧ (logoutRun st remote).lastActivity = none
      ∧ (∀ e : String, logoutRun st (Except.error e) = logoutRun st (Except.ok ())) := by
  intro st remote
  cases remote <;> simp [logoutRun, clearTokensM]

/-- C9: when the caller-provided signal is already aborted,
`handleApiResponse` short-circuits before the API call is invoked and
returns a failed result whose error has code NETWORK_ERROR and a
cancelled flag in its details. -/
theorem handleApiResponse_aborted_short_circuit :
    ∀ (T : Type) (outcome : Except ErrValue T),
      (handleApiResponse true outcome).1 = false
      ∧ ((handleApiResponse true outcome).2).success = false
      ∧ ((handleApiResponse true outcome).2).error =
          some ⟨"Request was cancelled", ErrorCode.NETWORK_ERROR, none, true,
            some ErrDetails.cancelledFlag, none, false⟩ := by
  intro T outcome
  simp [handleApiResponse, failureR]

theorem enterAll_while_refreshing (cs : List Nat) :
    ∀ q : List Nat,
      TokenRefreshManager.enterAll ⟨true, q⟩ cs = (⟨true, q ++ cs⟩, 0) := by
  induction cs with
  | nil => intro q; simp [TokenRefreshManager.enterAll]
  | cons c cs ih =>
    intro q
    simp [TokenRefreshManager.enterAll, TokenRefreshManager.enter, ih]

/-- C1: with one refresh in flight (started by `leader`) and N further
callers `ws` arriving while it is in flight, exactly one underlying
network refresh call is made, every one of the callers (leader and all
waiters, in enqueue order) is settled with the same outcome as that
single call, the waiter queue is empty afterwards, and `isRefreshing` is
reset — no enqueued waiter is left unresolved. -/
theorem tokenRefresh_single_flight :
    ∀ (leader : Nat) (ws : List Nat) (fnResult : Except String (Option String)),
      (runRefreshScenario leader ws fnResult).netCalls = 1
      ∧ (runRefreshScenario leader ws fnResult).resolutions =
          (leader, settleOutcome fnResult)
            :: ws.map (fun c => (c, settleOutcome fnResult))
      ∧ (runRefreshScenario leader ws fnResult).finalState = ManagerState.idle := by
  intro leader ws fnResult
  have hall := enterAll_while_refreshing ws []
  cases fnResult <;>
    simp [runRefreshScenario, TokenRefreshManager.enter, ManagerState.idle, hall,
      TokenRefreshManager.settle, settleOutcome]

/-- C6: whenever the underlying `authApi.refresh` call fails (a failure
result or a thrown exception) while a refresh token is present, the
session is torn down — both tokens removed from storage and `user`,
`isAuthenticated`, `lastActivity` cleared — every waiter queued on the
coordinator is resolved with a null token (never rejected), and the
caller's own result is `ok none`: no exception escapes
`refreshAccessToken`. -/
theorem refresh_failure_teardown :
    ∀ (st : AuthModel) (mgr : ManagerState) (o : RefreshApiOutcome),
      st.storedRefreshToken ≠ none →
      (o = RefreshApiOutcome.failResult ∨ o = RefreshApiOutcome.thrown) →
      (refreshAccessTokenRun st mgr o).1 = Except.ok none
      ∧ (refreshAccessTokenRun st mgr o).2.1.storedAccessToken = none
      ∧ (refreshAccessTokenRun st mgr o).2.1.storedRefreshToken = none
      ∧ (refreshAccessTokenRun st mgr o).2.1.user = none
      ∧ (refreshAccessTokenRun st mgr o).2.1.isAuthenticated = false
      ∧ (refreshAccessTokenRun st mgr o).2.1.lastActivity = none
      ∧ (refreshAccessTokenRun st mgr o).2.2.2 =
          mgr.refreshQueue.map (fun c => (c, RefreshOutcome.resolvedTok none)) := by
  intro st mgr o hrt ho
  obtain ⟨rt, hrt'⟩ : ∃ rt, st.storedRefreshToken = some rt := by
    cases h : st.storedRefreshToken with
    | none => exact absurd h hrt
    | some rt => exact ⟨rt, rfl⟩
  rcases ho with ho | ho <;> subst ho <;>
    simp [refreshAccessTokenRun, hrt', refreshInnerFn, clearTokensM, clearAuthStateM,
      TokenRefreshManager.settle]

/-- Witness for C6: a concrete authenticated session with refresh token
"r" and two queued waiters, where the refresh API returns a failure
result. -/
theorem refresh_failure_teardown_witness :
    (refreshAccessTokenRun ⟨some "a", some "r", some "u", true, false, some 5⟩
        ⟨true, [1, 2]⟩ RefreshApiOutcome.failResult).1 = Except.ok none
    ∧ (refreshAccessTokenRun ⟨some "a", some "r", some "u", true, false, some 5⟩
        ⟨true, [1, 2]⟩ RefreshApiOutcome.failResult).2.1.storedAccessToken = none
    ∧ (refreshAccessTokenRun ⟨some "a", some "r", some "u", true, false, some 5⟩
        ⟨true, [1, 2]⟩ RefreshApiOutcome.failResult).2.1.storedRefreshToken = none
    ∧ (refreshAccessTokenRun ⟨some "a", some "r", some "u", true, false, some 5⟩
        ⟨true, [1, 2]⟩ RefreshApiOutcome.failResult).2.1.user = none
    ∧ (refreshAccessTokenRun ⟨some "a", some "r", some "u", true, false, some 5⟩
        ⟨true, [1, 2]⟩ RefreshApiOutcome.failResult).2.1.isAuthenticated = false
    ∧ (refreshAccessTokenRun ⟨some "a", some "r", some "u", true, false, some 5⟩
        ⟨true, [1, 2]⟩ RefreshApiOutcome.failResult).2.1.lastActivity = none
    ∧ (refreshAccessTokenRun ⟨some "a", some "r", some "u", true, false, some 5⟩
        ⟨true, [1, 2]⟩ RefreshApiOutcome.failResult).2.2.2 =
        ([1, 2] : List Nat).map (fun c => (c, RefreshOutcome.resolvedTok none)) :=
  refresh_failure_teardown ⟨some "a", some "r", some "u", true, false, some 5⟩
    ⟨true, [1, 2]⟩ RefreshApiOutcome.failResult (by simp) (Or.inl rfl)

/-- C8: `normalizeError` accepts every input shape and always returns an
`AppError` — its embedding is a total function `ErrValue → AppError`,
with no throwing operation in any branch — and every input whose shape
matches none of its probes (a generic `Error`, an object matching no
probe, a string with no recognized pattern, or the final non-object
fallback) yields a generic UNKNOWN_ERROR with `isOperational = false`. -/
theorem normalizeError_unrecognized_fallback :
    ∀ v : ErrValue, unrecognizedShape v = true →
      (normalizeError v).code = ErrorCode.UNKNOWN_ERROR
      ∧ (normalizeError v).isOperational = false := by
  intro v h
  cases v with
  | jsError name message stack =>
    simp only [unrecognizedShape, Bool.not_eq_eq_eq_not, Bool.not_true, Bool.or_eq_false_iff] at h
    obtain ⟨⟨⟨⟨h1, h2⟩, h3⟩, h4⟩, h5⟩ := h
    simp [normalizeError, h1, h2, h3, h4, h5]
  | str s =>
    simp only [unrecognizedShape, Bool.not_eq_eq_eq_not, Bool.not_true, Bool.or_eq_false_iff] at h
    obtain ⟨⟨⟨⟨h1, h2⟩, h3⟩, h4⟩, h5⟩ := h
    simp [normalizeError, h1, h2, h3, h4, h5]
  | objPlain => simp [normalizeError]
  | otherVal => simp [normalizeError]
  | appErr e => simp [unrecognizedShape] at h
  | objStatus status message => simp [unrecognizedShape] at h
  | objResponse status dataMessage message => simp [unrecognizedShape] at h
  | objFetchFail status statusText => simp [unrecognizedShape] at h
  | objCodeMessage code message statusCode details => simp [unrecognizedShape] at h
  | objGraphQL firstMessage => simp [unrecognizedShape] at h
  | num n => simp [unrecognizedShape] at h

/-- Witness for C8: a plain boolean-like value (the final fallback). -/
theorem normalizeError_unrecognized_fallback_witness :
    (normalizeError ErrValue.otherVal).code = ErrorCode.UNKNOWN_ERROR
      ∧ (normalizeError ErrValue.otherVal).isOperational = false :=
  normalizeError_unrecognized_fallback ErrValue.otherVal (by decide)

theorem runRetryAux_fst_le (pol : RetryPolicy) (m : HttpMethod) (responses : Nat → Nat) :
    ∀ (fuel made : Nat), (runRetryAux pol m responses made fuel).1 ≤ made + fuel + 1 := by
  intro fuel
  induction fuel with
  | zero => intro made; simp [runRetryAux]
  | succ f ih =>
    intro made
    simp only [runRetryAux]
    split
    · show made + 1 ≤ made + (f + 1) + 1
      omega
    · split
      · have h := ih (made + 1)
        omega
      · show made + 1 ≤ made + (f + 1) + 1
        omega

theorem runRetryAux_fst_ge (pol : RetryPolicy) (m : HttpMethod) (responses : Nat → Nat) :
    ∀ (fuel made : Nat), made + 1 ≤ (runRetryAux pol m responses made fuel).1 := by
  intro fuel
  induction fuel with
  | zero => intro made; simp [runRetryAux]
  | succ f ih =>
    intro made
    simp only [runRetryAux]
    split
    · show made + 1 ≤ made + 1
      omega
    · split
      · have h := ih (made + 1)
        omega
      · show made + 1 ≤ made + 1
        omega

theorem runRetry_attempts_le_three (m : HttpMethod) (responses : Nat → Nat) :
    (runRetry clientRetryPolicy m responses).1 ≤ 3 := by
  have h := runRetryAux_fst_le clientRetryPolicy m responses (clientRetryPolicy.limit - 1) 0
  simpa [runRetry, clientRetryPolicy] using h

theorem retry_iff_configured (m : HttpMethod) (responses : Nat → Nat)
    (h : isSuccessStatus (responses 0) = false) :
    2 ≤ (runRetry clientRetryPolicy m responses).1 ↔
      (clientRetryPolicy.methods.contains m = true
        ∧ clientRetryPolicy.statusCodes.contains (responses 0) = true) := by
  constructor
  · intro h2
    by_contra hc
    have h1 : (runRetry clientRetryPolicy m responses).1 = 1 := by
      show (runRetryAux clientRetryPolicy m responses 0 (1 + 1)).1 = 1
      simp only [runRetryAux]
      simp only [h, Bool.false_eq_true, if_false]
      split
      · next hcond =>
          rw [Bool.and_eq_true] at hcond
          exact absurd hcond hc
      · rfl
    omega
  · rintro ⟨hA, hB⟩
    have hB' : responses 0 ∈ clientRetryPolicy.statusCodes := by simpa using hB
    show 2 ≤ (runRetryAux clientRetryPolicy m responses 0 (1 + 1)).1
    simp only [runRetryAux]
    simp [h, hA, hB']
    split
    · simp
    · split <;> simp

/-- C3 counterexample: POST is not an idempotent(-safe) method, yet it is
in the configured retry method list, and a POST whose first response is
503 is in fact retried — two attempts are made where the claim ("only
idempotent-safe methods are retried") demands one. -/
theorem retry_nonidempotent_counterexample :
    idempotentHttp HttpMethod.post = false
    ∧ clientRetryPolicy.methods.contains HttpMethod.post = true
    ∧ (runRetry clientRetryPolicy HttpMethod.post
        (fun i => if i = 0 then 503 else 200)).1 = 2 := by
  refine ⟨rfl, by decide, by decide⟩

/-- C3 amended: all five configured methods — GET, PUT, POST, PATCH,
DELETE, including the non-idempotent POST and PATCH — are retried, a
retry after a non-2xx first response happens exactly when the method is
configured and the status is in {401, 408, 429, 500, 502, 503, 504}, at
most 3 attempts total are made, and for each configured method a request
failing with 503 on the first two attempts and succeeding on the third
returns the success value with status 200 to the caller. -/
theorem retry_policy_all_methods :
    (∀ (m : HttpMethod) (responses : Nat → Nat),
        (runRetry clientRetryPolicy m responses).1 ≤ 3)
    ∧ (∀ (m : HttpMethod) (responses : Nat → Nat),
        isSuccessStatus (responses 0) = false →
        (2 ≤ (runRetry clientRetryPolicy m responses).1 ↔
          (clientRetryPolicy.methods.contains m = true
            ∧ clientRetryPolicy.statusCodes.contains (responses 0) = true)))
    ∧ (runRetry clientRetryPolicy HttpMethod.get
          (fun i => if i < 2 then 503 else 200) = (3, 200)
        ∧ runRetry clientRetryPolicy HttpMethod.put
          (fun i => if i < 2 then 503 else 200) = (3, 200)
        ∧ runRetry clientRetryPolicy HttpMethod.post
          (fun i => if i < 2 then 503 else 200) = (3, 200)
        ∧ runRetry clientRetryPolicy HttpMethod.patch
          (fun i => if i < 2 then 503 else 200) = (3, 200)
        ∧ runRetry clientRetryPolicy HttpMethod.delete
          (fun i => if i < 2 then 503 else 200) = (3, 200)) := by
  exact ⟨runRetry_attempts_le_three,
    fun m responses h => retry_iff_configured m responses h,
    by decide, by decide, by decide, by decide, by decide⟩

/-- Witness for C3 (amended): a GET whose responses are all 503 makes a
second attempt. -/
theorem retry_policy_all_methods_witness :
    2 ≤ (runRetry clientRetryPolicy HttpMethod.get (fun _ => 503)).1 :=
  (retry_policy_all_methods.2.1 HttpMethod.get (fun _ => 503) (by decide)).mpr
    (by decide)

/-- C5: two GETs with the same path and the same serialized query issued
while the first entry is alive (before its settlement time plus the 5000
ms TTL) share one network call and both receive the first call's
outcome; the same GET issued at or after settlement + TTL triggers a
second network call (receiving the fresh outcome); and write requests
(POST/PUT/PATCH/DELETE) are never deduplicated — two consecutive write
calls each issue their own network request. -/
theorem get_dedup_policy :
    (∀ (url params : String) (t1 s1 t2 s2 : Nat) (o1 o2 : NetOutcome),
        t2 < s1 + GET_DEDUP_TTL →
        ((getRequest emptyClient url params t1 s1 o1).1 = o1
          ∧ (getRequest (getRequest emptyClient url params t1 s1 o1).2
              url params t2 s2 o2).1 = o1
          ∧ (getRequest (getRequest emptyClient url params t1 s1 o1).2
              url params t2 s2 o2).2.netCalls = 1))
    ∧ (∀ (url params : String) (t1 s1 t2 s2 : Nat) (o1 o2 : NetOutcome),
        s1 + GET_DEDUP_TTL ≤ t2 →
        ((getRequest (getRequest emptyClient url params t1 s1 o1).2
            url params t2 s2 o2).1 = o2
          ∧ (getRequest (getRequest emptyClient url params t1 s1 o1).2
              url params t2 s2 o2).2.netCalls = 2))
    ∧ (∀ (st : ClientState) (o1 o2 : NetOutcome),
        (writeRequest st o1).1 = o1
          ∧ (writeRequest (writeRequest st o1).2 o2).1 = o2
          ∧ (writeRequest (writeRequest st o1).2 o2).2.netCalls = st.netCalls + 2) := by
  refine ⟨?_, ?_, ?_⟩
  · intro url params t1 s1 t2 s2 o1 o2 h
    refine ⟨by simp [getRequest, dedupedRequest, purge, emptyClient], ?_, ?_⟩ <;>
      simp [getRequest, dedupedRequest, purge, emptyClient, h]
  · intro url params t1 s1 t2 s2 o1 o2 h
    have h' : ¬ (t2 < s1 + GET_DEDUP_TTL) := by omega
    refine ⟨?_, ?_⟩ <;>
      simp [getRequest, dedupedRequest, purge, emptyClient, h']
  · intro st o1 o2
    refine ⟨rfl, rfl, ?_⟩
    simp [writeRequest]

/-- Witness for C5: concrete hit within the TTL (second GET at 1000 <
0 + 5000 shares the single call) and miss after it (second GET at 5000
issues a second call). -/
theorem get_dedup_policy_witness :
    ((getRequest emptyClient "u" "p" 0 0 (NetOutcome.ok "a")).1 = NetOutcome.ok "a"
      ∧ (getRequest (getRequest emptyClient "u" "p" 0 0 (NetOutcome.ok "a")).2
          "u" "p" 1000 1000 (NetOutcome.ok "b")).1 = NetOutcome.ok "a"
      ∧ (getRequest (getRequest emptyClient "u" "p" 0 0 (NetOutcome.ok "a")).2
          "u" "p" 1000 1000 (NetOutcome.ok "b")).2.netCalls = 1)
    ∧ ((getRequest (getRequest emptyClient "u" "p" 0 0 (NetOutcome.ok "a")).2
          "u" "p" 5000 5000 (NetOutcome.ok "b")).1 = NetOutcome.ok "b"
      ∧ (getRequest (getRequest emptyClient "u" "p" 0 0 (NetOutcome.ok "a")).2
          "u" "p" 5000 5000 (NetOutcome.ok "b")).2.netCalls = 2) :=
  ⟨get_dedup_policy.1 "u" "p" 0 0 1000 1000 (NetOutcome.ok "a") (NetOutcome.ok "b")
      (by decide),
    get_dedup_policy.2.1 "u" "p" 0 0 5000 5000 (NetOutcome.ok "a") (NetOutcome.ok "b")
      (by decide)⟩

/-- C10: when a deduplicated GET fails, the rejected outcome stays in the
`pendingRequests` cache until its settlement time plus the full TTL, so
a second identical GET issued within that window receives the same
failure and no new network call is attempted. -/
theorem failed_get_negative_cache :
    ∀ (url params : String) (t1 s1 t2 s2 : Nat) (emsg : String) (o2 : NetOutcome),
      t2 < s1 + GET_DEDUP_TTL →
      ((getRequest (getRequest emptyClient url params t1 s1 (NetOutcome.err emsg)).2
          url params t2 s2 o2).1 = NetOutcome.err emsg
        ∧ (getRequest (getRequest emptyClient url params t1 s1 (NetOutcome.err emsg)).2
            url params t2 s2 o2).2.netCalls = 1) := by
  intro url params t1 s1 t2 s2 emsg o2 h
  refine ⟨?_, ?_⟩ <;>
    simp [getRequest, dedupedRequest, purge, emptyClient, h]

/-- Witness for C10: a GET failing with "boom" at time 0; the identical
GET at 4999 receives the cached failure with a single network call. -/
theorem failed_get_negative_cache_witness :
    (getRequest (getRequest emptyClient "u" "p" 0 0 (NetOutcome.err "boom")).2
        "u" "p" 4999 4999 (NetOutcome.ok "b")).1 = NetOutcome.err "boom"
      ∧ (getRequest (getRequest emptyClient "u" "p" 0 0 (NetOutcome.err "boom")).2
          "u" "p" 4999 4999 (NetOutcome.ok "b")).2.netCalls = 1 :=
  failed_get_negative_cache "u" "p" 0 0 4999 4999 "boom" (NetOutcome.ok "b") (by decide)
